import Mathlib

/-!
Verification of the geographic utilities of this repository
(`src/utils.py`): the `GeoUtil` distance functions and the grid
construction / spatial-join aggregation of `VisualGeoData`.

Python floats are modelled as exact real numbers; the distance inputs,
which in Python may be `None` or a non-numeric object, are modelled by
the inductive type `PyObj`.  `assert` failures and library exceptions
are modelled by the `Except.error` branch of the return type.
-/

noncomputable section

/-- A Python value passed as a coordinate argument: `None`, a number,
or any other (non-numeric) object. -/
inductive PyObj where
  | none
  | num (x : ℝ)
  | nonNum

/-- The `x is None` test of the source (lines 63 and 86). -/
def PyObj.isNone : PyObj → Bool
  | .none => true
  | _ => false

/-- Numeric value of a `PyObj`; only used on branches where the asserts
have already guaranteed the object is a number. -/
def PyObj.val : PyObj → ℝ
  | .num x => x
  | _ => 0

/-- The condition asserted by the source for one coordinate (lines 65-68
and 88-91): `isinstance(v, numbers.Number) and lo <= v and v <= hi`.
`None` and non-numeric objects fail the `isinstance` test. -/
def numOK (o : PyObj) (lo hi : ℝ) : Prop :=
  match o with
  | .num x => lo ≤ x ∧ x ≤ hi
  | _ => False

instance (o : PyObj) (lo hi : ℝ) : Decidable (numOK o lo hi) :=
  match o with
  | .num x => inferInstanceAs (Decidable (lo ≤ x ∧ x ≤ hi))
  | .none => isFalse (fun h => h)
  | .nonNum => isFalse (fun h => h)

/-- `GeoUtil.degree2radius` (line 54): `degree * (math.pi/180)`. -/
def degree2radius (degree : ℝ) : ℝ := degree * (Real.pi / 180)

/-- The two-argument arctangent `math.atan2 y x`, with the usual C
convention (`atan2 0 0 = 0`). -/
def atan2 (y x : ℝ) : ℝ :=
  if 0 < x then Real.arctan (y / x)
  else if x < 0 then
    (if 0 ≤ y then Real.arctan (y / x) + Real.pi else Real.arctan (y / x) - Real.pi)
  else
    (if 0 < y then Real.pi / 2 else if y < 0 then -(Real.pi / 2) else 0)

/-- Round a real to the nearest integer, ties to the nearest even
integer.  This is the rounding used by Python's built-in `round`. -/
def roundHalfEven (x : ℝ) : ℤ :=
  if Int.fract x = 1 / 2 then (if Even ⌊x⌋ then ⌊x⌋ else ⌊x⌋ + 1) else round x

/-- Python's `round(x, d)` with `d` decimal digits, idealised over the
exact reals. -/
def pyRound (x : ℝ) (d : ℕ) : ℝ := (roundHalfEven (x * 10 ^ d) : ℝ) / 10 ^ d

/-- `GeoUtil.get_harversion_distance` (lines 58-79).  The `None` test
precedes the four asserts; the asserts run in source order and an
assertion failure is the `Except.error "AssertionError"` branch.
`math.sqrt` raises `ValueError` on a negative argument, so the two
square roots (evaluated left to right in `math.atan2(math.sqrt(a),
math.sqrt(1-a))`) are guarded by domain checks; the lemmas
`haversine_core_nonneg` and `haversine_core_le_one` below show these
error branches are unreachable once the asserts have passed. -/
def get_harversion_distance (x1 y1 x2 y2 : PyObj) (round_decimal_digits : ℕ) :
    Except String (Option ℝ) :=
  if x1.isNone || y1.isNone || x2.isNone || y2.isNone then Except.ok Option.none
  else if ¬ numOK x1 (-180) 180 then Except.error "AssertionError"
  else if ¬ numOK y1 (-90) 90 then Except.error "AssertionError"
  else if ¬ numOK x2 (-180) 180 then Except.error "AssertionError"
  else if ¬ numOK y2 (-90) 90 then Except.error "AssertionError"
  else
    let dLon := degree2radius (x2.val - x1.val)
    let dLat := degree2radius (y2.val - y1.val)
    let a := Real.sin (dLat / 2) * Real.sin (dLat / 2) +
      Real.cos (degree2radius y1.val) * Real.cos (degree2radius y2.val) *
        (Real.sin (dLon / 2) * Real.sin (dLon / 2))
    if a < 0 then Except.error "math domain error"
    else if 1 - a < 0 then Except.error "math domain error"
    else
      Except.ok (some (pyRound
        (6371 * (2 * atan2 (Real.sqrt a) (Real.sqrt (1 - a))))
        round_decimal_digits))

/-- `GeoUtil.get_euclidean_distance` (lines 82-97): same `None` test and
asserts, then `dLon = abs(x2-x1)`, reduced by `360` when at least `180`,
`dLat = y2-y1`, and `round(sqrt(dLon**2 + dLat**2), digits)`.  The
`math.sqrt` domain check mirrors the Python exception; it is unreachable
because the argument is a sum of squares. -/
def get_euclidean_distance (x1 y1 x2 y2 : PyObj) (round_decimal_digits : ℕ) :
    Except String (Option ℝ) :=
  if x1.isNone || y1.isNone || x2.isNone || y2.isNone then Except.ok Option.none
  else if ¬ numOK x1 (-180) 180 then Except.error "AssertionError"
  else if ¬ numOK y1 (-90) 90 then Except.error "AssertionError"
  else if ¬ numOK x2 (-180) 180 then Except.error "AssertionError"
  else if ¬ numOK y2 (-90) 90 then Except.error "AssertionError"
  else
    let dLon0 := |x2.val - x1.val|
    let dLon := if 180 ≤ dLon0 then dLon0 - 360 else dLon0
    let dLat := y2.val - y1.val
    if dLon ^ 2 + dLat ^ 2 < 0 then Except.error "math domain error"
    else
      Except.ok (some (pyRound (Real.sqrt (dLon ^ 2 + dLat ^ 2)) round_decimal_digits))

/-- Transcribed from the spec's `greatCircleDistance` algorithm text:
R = 6371, Δlon = radians(x2−x1), Δlat = radians(y2−y1),
a = sin²(Δlat/2) + cos(radians(y1))·cos(radians(y2))·sin²(Δlon/2),
c = 2·atan2(√a, √(1−a)), result R·c rounded to `p` decimal digits. -/
def specHaversine (x1 y1 x2 y2 : ℝ) (p : ℕ) : ℝ :=
  let dLon := degree2radius (x2 - x1)
  let dLat := degree2radius (y2 - y1)
  let a := Real.sin (dLat / 2) ^ 2 +
    Real.cos (degree2radius y1) * Real.cos (degree2radius y2) * Real.sin (dLon / 2) ^ 2
  let c := 2 * atan2 (Real.sqrt a) (Real.sqrt (1 - a))
  pyRound (6371 * c) p

/-- Transcribed from the spec's `planarDistance` algorithm text:
Δlon = |x2−x1|, replaced by Δlon−360 when Δlon ≥ 180, Δlat = y2−y1,
result √(Δlon² + Δlat²) rounded to `p` digits. -/
def specPlanar (x1 y1 x2 y2 : ℝ) (p : ℕ) : ℝ :=
  let dLon0 := |x2 - x1|
  let dLon := if 180 ≤ dLon0 then dLon0 - 360 else dLon0
  let dLat := y2 - y1
  pyRound (Real.sqrt (dLon ^ 2 + dLat ^ 2)) p

end

/-!
Grid construction (`VisualGeoData.create_grid`, lines 165-204).
Coordinates are modelled by exact rationals (Python floats with exact
arithmetic at the small scales involved).
-/

/-- A planar coordinate pair. -/
structure Point where
  x : ℚ
  y : ℚ
  deriving DecidableEq

/-- A shapely `Polygon` built from four corner coordinates, in the
order the source lists them (line 194): top-left, top-right,
bottom-right, bottom-left. -/
structure Polygon where
  p1 : Point
  p2 : Point
  p3 : Point
  p4 : Point
  deriving DecidableEq

/-- The bounding box `gdf.total_bounds` of the boundary dataset
(line 179-180): `xmin, ymin, xmax, ymax`. -/
structure Bounds where
  xmin : ℚ
  ymin : ℚ
  xmax : ℚ
  ymax : ℚ

/-- Inner loop of `create_grid` (lines 193-199): one column of cells,
walking downwards from `yt`/`yb`, one cell per row. -/
def gridCells (xl xr yt yb s : ℚ) : ℕ → List Polygon
  | 0 => []
  | n + 1 =>
    ⟨⟨xl, yt⟩, ⟨xr, yt⟩, ⟨xr, yb⟩, ⟨xl, yb⟩⟩ :: gridCells xl xr (yt - s) (yb - s) s n

/-- Outer loop of `create_grid` (lines 190-201): columns left to right,
each contributing `rows` cells appended in order. -/
def gridCols (xl xr yt yb s : ℚ) (rows : ℕ) : ℕ → List Polygon
  | 0 => []
  | n + 1 => gridCells xl xr yt yb s rows ++ gridCols (xl + s) (xr + s) yt yb s rows n

/-- `VisualGeoData.create_grid` (lines 165-204).
`rows = int(np.ceil((ymax-ymin)/grid_size))` and similarly `cols`:
for `grid_size = 0` the numpy float division gives `inf` (or `nan` when
the extent is zero) and the `int(...)` conversion raises, modelled by
the error branch; for a negative quotient `int` gives a negative value
and `range` over it is empty, modelled by `Int.toNat` (negative values
clamp to `0`).  The returned GeoDataFrame is the polygon list in
append order (column-major). -/
def create_grid (gdf : Bounds) (grid_size : ℚ) : Except String (List Polygon) :=
  if grid_size = 0 then Except.error "cannot convert float infinity or NaN to integer"
  else
    let rows := (⌈(gdf.ymax - gdf.ymin) / grid_size⌉).toNat
    let cols := (⌈(gdf.xmax - gdf.xmin) / grid_size⌉).toNat
    Except.ok (gridCols gdf.xmin (gdf.xmin + grid_size) gdf.ymax (gdf.ymax - grid_size)
      grid_size rows cols)

/-- The axis-aligned cell with top-left corner `(x0, y0)` and side `s`,
as `create_grid` constructs it. -/
def cellAt (x0 y0 s : ℚ) : Polygon :=
  ⟨⟨x0, y0⟩, ⟨x0 + s, y0⟩, ⟨x0 + s, y0 - s⟩, ⟨x0, y0 - s⟩⟩

/-- The `within` predicate of the external geometry collaborator
(geopandas `sjoin` with `predicate='within'`, line 262-267), for a point
against a rectangular grid cell in `create_grid`'s corner layout:
by the DE-9IM definition used by shapely, a point is `within` a polygon
iff it lies in the polygon's interior, so a point on the cell boundary
is not `within` the cell. -/
def withinRect (pt : Point) (g : Polygon) : Bool :=
  decide (g.p1.x < pt.x) && decide (pt.x < g.p2.x) &&
    decide (g.p3.y < pt.y) && decide (pt.y < g.p1.y)

/-- Closed membership of a point in a rectangular cell (corner layout of
`create_grid`): the point lies in the cell's footprint, boundary
included. -/
def inClosedRect (pt : Point) (g : Polygon) : Bool :=
  decide (g.p1.x ≤ pt.x) && decide (pt.x ≤ g.p2.x) &&
    decide (g.p3.y ≤ pt.y) && decide (pt.y ≤ g.p1.y)

/-!
Index aggregation (`VisualGeoData.visualize_by_index`, lines 262-277).
A row of the spatial-join result `points_within_grid` is modelled by its
two fields the aggregation reads: `total_idx` (a rational, the exact
value of the float column) and `index_right` (the label of the owning
grid cell).  The transformed column is a Python float, which can be the
infinity produced by `1 / 0.0` in numpy; `PyVal` models that value
domain.
-/

noncomputable section

/-- A numpy float value arising in the `total_idx_reverse` column:
either a finite real or `inf`. -/
inductive PyVal where
  | fin (x : ℝ)
  | inf

/-- Float addition as used by the groupby sum: `inf` is absorbing. -/
def PyVal.add : PyVal → PyVal → PyVal
  | .fin a, .fin b => .fin (a + b)
  | _, _ => .inf

/-- The numpy float division `1 / q` (line 271): division by zero gives
`inf`, not an exception. -/
def pyRecip (q : ℚ) : PyVal :=
  if q = 0 then .inf else .fin ((q : ℝ))⁻¹

/-- `np.log1p` (line 273) on a float: `log1p(inf) = inf`. -/
def pyLog1p : PyVal → PyVal
  | .fin x => .fin (Real.log (1 + x))
  | .inf => .inf

/-- The transformed-column computation (lines 270-273): the `reverse`
and `reverse_log` branches build the `total_idx_reverse` column; for any
other method the column is never created and the later
`groupby(...)["total_idx_reverse"]` lookup raises `KeyError`. -/
def indexTransform (index_method : String) (pts : List (ℚ × ℕ)) :
    Except String (List ((ℚ × ℕ) × PyVal)) :=
  if index_method = "reverse" then
    Except.ok (pts.map (fun p => (p, pyRecip p.1)))
  else if index_method = "reverse_log" then
    Except.ok (pts.map (fun p => (p, pyLog1p (pyRecip p.1))))
  else Except.error "KeyError"

/-- `points_within_grid.groupby('index_right')["total_idx_reverse"].sum()`
(line 276): one entry per distinct `index_right` label, holding the sum
of the transformed column over the rows with that label.  (pandas
returns the entries sorted by label; only the label-to-sum mapping is
used downstream, via label alignment.) -/
def groupbySum (rows : List ((ℚ × ℕ) × PyVal)) : List (ℕ × PyVal) :=
  ((rows.map (fun r => r.1.2)).dedup).map
    (fun k => (k, ((rows.filter (fun r => r.1.2 == k)).map (fun r => r.2)).foldl
      PyVal.add (PyVal.fin 0)))

/-- `grid['idx_sum_reverse'] = grid_idx_sum_reverse` (line 277): pandas
aligns the summed series to the grid's index labels; a label with no
entry in the series receives `NaN`, modelled by `Option.none`. -/
def alignSeries (gridLabels : List ℕ) (series : List (ℕ × PyVal)) :
    List (ℕ × Option PyVal) :=
  gridLabels.map (fun j => (j, (series.find? (fun r => r.1 == j)).map (fun r => r.2)))

/-- The aggregation pipeline of `visualize_by_index` (lines 269-277):
transform the `total_idx` column, group by owning cell, sum, and align
to the grid labels.  `gridLabels` are the index labels of the filtered
grid; `pts` the rows of the points-within-grid join. -/
def visualize_by_index_agg (index_method : String) (gridLabels : List ℕ)
    (pts : List (ℚ × ℕ)) : Except String (List (ℕ × Option PyVal)) :=
  match indexTransform index_method pts with
  | .error e => .error e
  | .ok rows => .ok (alignSeries gridLabels (groupbySum rows))

/-- Transcribed from the spec's `aggregateIndex` text: the per-point
weight is `1 / total_idx` for `reverse` and `ln(1 + 1/total_idx)` for
`reverse_log`. -/
def specWeight (index_method : String) (q : ℚ) : ℝ :=
  if index_method = "reverse" then ((q : ℝ))⁻¹ else Real.log (1 + ((q : ℝ))⁻¹)

/-- Transcribed from the spec's `aggregateIndex` text: a cell with no
assigned points has an absent aggregate; otherwise the aggregate is the
sum of the transformed weights of exactly the points assigned to it. -/
def aggValueSpec (index_method : String) (pts : List (ℚ × ℕ)) (k : ℕ) : Option PyVal :=
  let assigned := pts.filter (fun r => r.2 == k)
  if assigned.isEmpty then Option.none
  else some (PyVal.fin ((assigned.map (fun r => specWeight index_method r.1)).sum))

end

/-- The four cells of `create_grid` over the bounding box (0,0)-(10,10)
with grid size 5, in the source's column-major append order. -/
def demoGrid : List Polygon :=
  [⟨⟨0, 10⟩, ⟨5, 10⟩, ⟨5, 5⟩, ⟨0, 5⟩⟩, ⟨⟨0, 5⟩, ⟨5, 5⟩, ⟨5, 0⟩, ⟨0, 0⟩⟩,
   ⟨⟨5, 10⟩, ⟨10, 10⟩, ⟨10, 5⟩, ⟨5, 5⟩⟩, ⟨⟨5, 5⟩, ⟨10, 5⟩, ⟨10, 0⟩, ⟨5, 0⟩⟩]

/-! ## Helper lemmas -/

lemma foldl_pyadd_fin (xs : List ℝ) :
    ∀ a : ℝ, (xs.map PyVal.fin).foldl PyVal.add (PyVal.fin a) = PyVal.fin (a + xs.sum) := by
  induction xs with
  | nil => intro a; simp
  | cons x xs ih =>
    intro a
    simp only [List.map_cons, List.foldl_cons, List.sum_cons, PyVal.add, ih]
    ring_nf

lemma foldl_pyadd_inf_acc (l : List PyVal) :
    l.foldl PyVal.add PyVal.inf = PyVal.inf := by
  induction l with
  | nil => rfl
  | cons b l ih =>
    have hb : PyVal.add PyVal.inf b = PyVal.inf := by cases b <;> rfl
    simp only [List.foldl_cons, hb, ih]

lemma foldl_pyadd_of_mem_inf (l : List PyVal) (h : PyVal.inf ∈ l) :
    ∀ a, l.foldl PyVal.add a = PyVal.inf := by
  induction l with
  | nil => cases h
  | cons b l ih =>
    intro a
    rcases List.mem_cons.mp h with hb | hl
    · subst hb
      have ha : PyVal.add a PyVal.inf = PyVal.inf := by cases a <;> rfl
      simp only [List.foldl_cons, ha, foldl_pyadd_inf_acc]
    · simp only [List.foldl_cons, ih hl]

lemma find?_keyed_map (f : ℕ → PyVal) (k : ℕ) :
    ∀ ks : List ℕ, (ks.map (fun j => (j, f j))).find? (fun r => r.1 == k) =
      if k ∈ ks then some (k, f k) else none := by
  intro ks
  induction ks with
  | nil => simp
  | cons j ks ih =>
    by_cases hj : j = k
    · subst hj
      simp [List.find?_cons_of_pos]
    · rw [List.map_cons, List.find?_cons_of_neg, ih]
      · simp [List.mem_cons, hj, Ne.symm hj]
      · simp [hj]

lemma filter_over_map {α β : Type} (g : α → β) (q : β → Bool) :
    ∀ l : List α, (l.map g).filter q = (l.filter (fun a => q (g a))).map g := by
  intro l
  induction l with
  | nil => rfl
  | cons a l ih =>
    simp only [List.map_cons, List.filter_cons]
    by_cases hq : q (g a)
    · simp [hq, ih]
    · simp [hq, ih]

lemma filter_key_empty_iff (pts : List (ℚ × ℕ)) (k : ℕ) :
    (pts.filter (fun r => r.2 == k)).isEmpty = true ↔ k ∉ pts.map (fun p => p.2) := by
  rw [List.isEmpty_iff, List.filter_eq_nil_iff]
  constructor
  · intro h hk
    rcases List.mem_map.mp hk with ⟨r, hr, hrk⟩
    exact h r hr (by simp [hrk])
  · intro h r hr hrk
    exact h (List.mem_map.mpr ⟨r, hr, by simpa using hrk⟩)

/-- Core lemma: when the transform sends every `total_idx` in the data
to a finite weight, the aligned groupby sum at any grid label `k` is the
spec aggregate: absent when no row carries label `k`, otherwise the
finite sum of weights over exactly the rows with label `k`. -/
lemma alignSeries_groupbySum_fin (tr : ℚ → PyVal) (w : ℚ → ℝ)
    (pts : List (ℚ × ℕ)) (grid : List ℕ) (k : ℕ) (hk : k ∈ grid)
    (htr : ∀ r ∈ pts, tr r.1 = PyVal.fin (w r.1)) :
    (k, (if (pts.filter (fun r => r.2 == k)).isEmpty then Option.none
         else some (PyVal.fin (((pts.filter (fun r => r.2 == k)).map (fun r => w r.1)).sum))))
      ∈ alignSeries grid (groupbySum (pts.map (fun p => (p, tr p.1)))) := by
  have hkeys : (pts.map (fun p => (p, tr p.1))).map (fun r => r.1.2) =
      pts.map (fun p => p.2) := by
    rw [List.map_map]
    rfl
  unfold alignSeries groupbySum
  rw [hkeys]
  refine List.mem_map.mpr ⟨k, hk, ?_⟩
  rw [find?_keyed_map]
  by_cases hmem : k ∈ (pts.map (fun p => p.2)).dedup
  · rw [if_pos hmem]
    simp only [Option.map]
    have hne : ¬ (pts.filter (fun r => r.2 == k)).isEmpty = true := by
      rw [filter_key_empty_iff]
      intro hno
      exact hno (List.mem_dedup.mp hmem)
    rw [if_neg hne]
    have hfil : ((pts.map (fun p => (p, tr p.1))).filter (fun r => r.1.2 == k)) =
        (pts.filter (fun r => r.2 == k)).map (fun p => (p, tr p.1)) := by
      rw [filter_over_map]
    rw [hfil, List.map_map]
    have hvals : (pts.filter (fun r => r.2 == k)).map
          ((fun r => r.2) ∘ (fun p => (p, tr p.1))) =
        ((pts.filter (fun r => r.2 == k)).map (fun r => w r.1)).map PyVal.fin := by
      rw [List.map_map]
      refine List.map_congr_left ?_
      intro r hr
      exact htr r (List.mem_of_mem_filter hr)
    rw [hvals, foldl_pyadd_fin, zero_add]
  · rw [if_neg hmem]
    simp only [Option.map]
    have hemp : (pts.filter (fun r => r.2 == k)).isEmpty = true := by
      rw [filter_key_empty_iff]
      intro hin
      exact hmem (List.mem_dedup.mpr hin)
    rw [if_pos hemp]

/-- Core lemma: when some row with label `k` has a transform value of
`inf`, the aligned groupby sum at `k` is `inf`. -/
lemma alignSeries_groupbySum_inf (tr : ℚ → PyVal)
    (pts : List (ℚ × ℕ)) (grid : List ℕ) (k : ℕ) (hk : k ∈ grid)
    (r0 : ℚ × ℕ) (hr0 : r0 ∈ pts) (hr0k : r0.2 = k) (htr : tr r0.1 = PyVal.inf) :
    (k, some PyVal.inf) ∈ alignSeries grid (groupbySum (pts.map (fun p => (p, tr p.1)))) := by
  have hkeys : (pts.map (fun p => (p, tr p.1))).map (fun r => r.1.2) =
      pts.map (fun p => p.2) := by
    rw [List.map_map]
    rfl
  unfold alignSeries groupbySum
  rw [hkeys]
  refine List.mem_map.mpr ⟨k, hk, ?_⟩
  rw [find?_keyed_map]
  have hmem : k ∈ (pts.map (fun p => p.2)).dedup :=
    List.mem_dedup.mpr (List.mem_map.mpr ⟨r0, hr0, hr0k⟩)
  rw [if_pos hmem]
  simp only [Option.map]
  have hfil : ((pts.map (fun p => (p, tr p.1))).filter (fun r => r.1.2 == k)) =
      (pts.filter (fun r => r.2 == k)).map (fun p => (p, tr p.1)) := by
    rw [filter_over_map]
  rw [hfil, List.map_map]
  have hinf : PyVal.inf ∈ (pts.filter (fun r => r.2 == k)).map
      ((fun r => r.2) ∘ (fun p => (p, tr p.1))) := by
    refine List.mem_map.mpr ⟨r0, ?_, htr⟩
    exact List.mem_filter.mpr ⟨hr0, by simp [hr0k]⟩
  rw [foldl_pyadd_of_mem_inf _ hinf]

lemma visualize_reverse_eq (grid : List ℕ) (pts : List (ℚ × ℕ)) :
    visualize_by_index_agg "reverse" grid pts =
      Except.ok (alignSeries grid (groupbySum (pts.map (fun p => (p, pyRecip p.1))))) := by
  unfold visualize_by_index_agg indexTransform
  rw [if_pos rfl]

lemma visualize_reverse_log_eq (grid : List ℕ) (pts : List (ℚ × ℕ)) :
    visualize_by_index_agg "reverse_log" grid pts =
      Except.ok (alignSeries grid
        (groupbySum (pts.map (fun p => (p, pyLog1p (pyRecip p.1)))))) := by
  unfold visualize_by_index_agg indexTransform
  rw [if_neg (by decide), if_pos rfl]

lemma gridCells_length (xl xr s : ℚ) :
    ∀ (n : ℕ) (yt yb : ℚ), (gridCells xl xr yt yb s n).length = n := by
  intro n
  induction n with
  | zero => intro yt yb; rfl
  | succ n ih =>
    intro yt yb
    simp only [gridCells, List.length_cons, ih]

lemma gridCols_length (s : ℚ) (rows : ℕ) :
    ∀ (cols : ℕ) (xl xr yt yb : ℚ), (gridCols xl xr yt yb s rows cols).length = cols * rows := by
  intro cols
  induction cols with
  | zero => intro xl xr yt yb; simp [gridCols]
  | succ n ih =>
    intro xl xr yt yb
    simp only [gridCols, List.length_append, gridCells_length, ih]
    ring

lemma create_grid_zero (b : Bounds) :
    create_grid b 0 = Except.error "cannot convert float infinity or NaN to integer" := by
  unfold create_grid
  rw [if_pos rfl]

lemma create_grid_neg (b : Bounds) (s : ℚ) (hx : b.xmin ≤ b.xmax) (hs : s < 0) :
    create_grid b s = Except.ok [] := by
  unfold create_grid
  rw [if_neg (ne_of_lt hs)]
  have hcols : (⌈(b.xmax - b.xmin) / s⌉).toNat = 0 := by
    rw [Int.toNat_eq_zero, Int.ceil_le]
    push_cast
    exact div_nonpos_of_nonneg_of_nonpos (sub_nonneg.mpr hx) hs.le
  rw [hcols]
  rfl


/-! ## Claim C1 -/

/-- C1: for every point assigned to a grid cell, the aggregation
transforms its `total_idx` weight as `1/total_idx` (`reverse`) or
`ln(1 + 1/total_idx)` (`reverse_log`), each cell's aggregate is the sum
of the transformed weights of exactly the points assigned to it, and a
cell with no assigned points carries an absent aggregate, not zero. -/
theorem C1_aggregate_refines_spec (index_method : String)
    (hm : index_method = "reverse" ∨ index_method = "reverse_log")
    (pts : List (ℚ × ℕ)) (grid : List ℕ) (k : ℕ)
    (hnz : ∀ r ∈ pts, r.1 ≠ 0) (hk : k ∈ grid) :
    ∃ out, visualize_by_index_agg index_method grid pts = Except.ok out ∧
      (k, aggValueSpec index_method pts k) ∈ out := by
  rcases hm with hm | hm <;> subst hm
  · rw [visualize_reverse_eq]
    refine ⟨_, rfl, ?_⟩
    have htr : ∀ r ∈ pts, pyRecip r.1 = PyVal.fin (specWeight "reverse" r.1) := by
      intro r hr
      unfold pyRecip specWeight
      rw [if_neg (hnz r hr), if_pos rfl]
    exact alignSeries_groupbySum_fin pyRecip (specWeight "reverse") pts grid k hk htr
  · rw [visualize_reverse_log_eq]
    refine ⟨_, rfl, ?_⟩
    have htr : ∀ r ∈ pts,
        pyLog1p (pyRecip r.1) = PyVal.fin (specWeight "reverse_log" r.1) := by
      intro r hr
      unfold pyRecip specWeight pyLog1p
      rw [if_neg (hnz r hr), if_neg (by decide)]
    exact alignSeries_groupbySum_fin (fun q => pyLog1p (pyRecip q))
      (specWeight "reverse_log") pts grid k hk htr

/-- Witness for C1 at the spec's end-to-end example: cell 0 holds points
with `total_idx` 2 and 4, cell 1 holds none. -/
theorem C1_aggregate_refines_spec_witness :
    ((("reverse" : String) = "reverse" ∨ ("reverse" : String) = "reverse_log") ∧
      (∀ r ∈ [((2 : ℚ), 0), ((4 : ℚ), 0)], r.1 ≠ 0) ∧ 0 ∈ [0, 1]) ∧
    (∃ out, visualize_by_index_agg "reverse" [0, 1] [((2 : ℚ), 0), ((4 : ℚ), 0)] =
        Except.ok out ∧
      (0, aggValueSpec "reverse" [((2 : ℚ), 0), ((4 : ℚ), 0)] 0) ∈ out) :=
  ⟨⟨Or.inl rfl, by norm_num, by norm_num⟩,
   C1_aggregate_refines_spec "reverse" (Or.inl rfl) _ _ 0 (by norm_num) (by norm_num)⟩

/-! ## Claim C2 -/

/-- C2: for every region whose bounding box has width `W` and height
`H`, and every grid size `S > 0`, `create_grid` returns exactly
`ceil(H/S) * ceil(W/S)` cells before any filtering. -/
theorem C2_create_grid_cell_count (b : Bounds) (s : ℚ)
    (hs : 0 < s) (hx : b.xmin ≤ b.xmax) (hy : b.ymin ≤ b.ymax) :
    ∃ l, create_grid b s = Except.ok l ∧
      (l.length : ℤ) = ⌈(b.ymax - b.ymin) / s⌉ * ⌈(b.xmax - b.xmin) / s⌉ := by
  refine ⟨gridCols b.xmin (b.xmin + s) b.ymax (b.ymax - s) s
    (⌈(b.ymax - b.ymin) / s⌉).toNat (⌈(b.xmax - b.xmin) / s⌉).toNat, ?_, ?_⟩
  · unfold create_grid
    rw [if_neg (ne_of_gt hs)]
  · rw [gridCols_length]
    have hrows : (0 : ℤ) ≤ ⌈(b.ymax - b.ymin) / s⌉ :=
      Int.ceil_nonneg (div_nonneg (sub_nonneg.mpr hy) hs.le)
    have hcols : (0 : ℤ) ≤ ⌈(b.xmax - b.xmin) / s⌉ :=
      Int.ceil_nonneg (div_nonneg (sub_nonneg.mpr hx) hs.le)
    push_cast [Int.toNat_of_nonneg hrows, Int.toNat_of_nonneg hcols]
    ring

/-- Witness for C2: bounding box (0,0)-(10,10) with grid size 5 gives
`ceil(10/5) * ceil(10/5) = 4` cells. -/
theorem C2_create_grid_cell_count_witness :
    ((0 : ℚ) < 5 ∧ (0 : ℚ) ≤ 10 ∧ (0 : ℚ) ≤ 10) ∧
    (∃ l, create_grid ⟨0, 0, 10, 10⟩ 5 = Except.ok l ∧
      (l.length : ℤ) = ⌈((10 : ℚ) - 0) / 5⌉ * ⌈((10 : ℚ) - 0) / 5⌉) :=
  ⟨⟨by norm_num, by norm_num, by norm_num⟩,
   C2_create_grid_cell_count ⟨0, 0, 10, 10⟩ 5 (by norm_num) (by norm_num) (by norm_num)⟩

/-! ## Claim C7 -/

/-- C7 as stated is false on the code: a dataset containing a point with
`total_idx = 0` does not make the aggregation fail; with method
`reverse` it returns a value (the cell's aggregate is the float
infinity produced by `1 / 0.0`). -/
theorem C7_counterexample :
    visualize_by_index_agg "reverse" [0] [((0 : ℚ), 0)] =
      Except.ok [(0, some PyVal.inf)] := rfl

/-- C7 amended: a point with `total_idx = 0` is not a fatal error; the
numpy division yields the float infinity, the point is not skipped, and
the aggregate of its cell becomes infinity, for both `reverse` and
`reverse_log`. -/
theorem C7_zero_idx_gives_infinite_cell (index_method : String)
    (hm : index_method = "reverse" ∨ index_method = "reverse_log")
    (pts : List (ℚ × ℕ)) (grid : List ℕ) (k : ℕ)
    (hmem : ((0 : ℚ), k) ∈ pts) (hk : k ∈ grid) :
    ∃ out, visualize_by_index_agg index_method grid pts = Except.ok out ∧
      (k, some PyVal.inf) ∈ out := by
  have h0 : pyRecip (0 : ℚ) = PyVal.inf := by
    unfold pyRecip
    rw [if_pos rfl]
  rcases hm with hm | hm <;> subst hm
  · rw [visualize_reverse_eq]
    exact ⟨_, rfl, alignSeries_groupbySum_inf pyRecip pts grid k hk
      ((0 : ℚ), k) hmem rfl h0⟩
  · rw [visualize_reverse_log_eq]
    refine ⟨_, rfl, alignSeries_groupbySum_inf (fun q => pyLog1p (pyRecip q)) pts grid k hk
      ((0 : ℚ), k) hmem rfl ?_⟩
    show pyLog1p (pyRecip (0 : ℚ)) = PyVal.inf
    rw [h0]
    rfl

/-- Witness for the amended C7 with method `reverse_log`. -/
theorem C7_zero_idx_gives_infinite_cell_witness :
    ((("reverse_log" : String) = "reverse" ∨ ("reverse_log" : String) = "reverse_log") ∧
      ((0 : ℚ), 3) ∈ [((0 : ℚ), 3)] ∧ 3 ∈ [3]) ∧
    (∃ out, visualize_by_index_agg "reverse_log" [3] [((0 : ℚ), 3)] = Except.ok out ∧
      (3, some PyVal.inf) ∈ out) :=
  ⟨⟨Or.inr rfl, by simp, by simp⟩,
   C7_zero_idx_gives_infinite_cell "reverse_log" (Or.inr rfl) _ _ 3 (by simp) (by simp)⟩

/-! ## Claim C8 -/

/-- C8 as stated is false on the code: `create_grid` with the negative
grid size −5 does not raise; it silently returns a grid with no cells
(`range` over the negative row and column counts is empty). -/
theorem C8_counterexample : create_grid ⟨0, 0, 10, 10⟩ (-5) = Except.ok [] :=
  create_grid_neg _ _ (by norm_num) (by norm_num)

/-- C8 amended: `create_grid` performs no grid-size validation.  A grid
size of exactly 0 raises only the incidental error of converting the
infinite (or NaN) cell count to `int`; a negative grid size raises
nothing and silently returns a grid with zero cells. -/
theorem C8_no_gridsize_validation (b : Bounds) (s : ℚ) (hx : b.xmin ≤ b.xmax) :
    (s = 0 → create_grid b s =
      Except.error "cannot convert float infinity or NaN to integer") ∧
    (s < 0 → create_grid b s = Except.ok []) := by
  constructor
  · intro h
    subst h
    exact create_grid_zero b
  · intro h
    exact create_grid_neg b s hx h

/-- Witness for the amended C8, exercising both the zero and the
negative grid-size branches. -/
theorem C8_no_gridsize_validation_witness :
    ((0 : ℚ) ≤ 10) ∧
    (create_grid ⟨0, 0, 10, 10⟩ 0 =
      Except.error "cannot convert float infinity or NaN to integer") ∧
    (create_grid ⟨0, 0, 10, 10⟩ (-5) = Except.ok []) :=
  ⟨by norm_num,
   (C8_no_gridsize_validation ⟨0, 0, 10, 10⟩ 0 (by norm_num)).1 rfl,
   (C8_no_gridsize_validation ⟨0, 0, 10, 10⟩ (-5) (by norm_num)).2 (by norm_num)⟩

/-! ## Claims C6, C9, C10 -/

lemma isNone_false {o : PyObj} (h : o ≠ PyObj.none) : o.isNone = false := by
  cases o with
  | none => exact absurd rfl h
  | num x => rfl
  | nonNum => rfl

lemma distances_return_none (x1 y1 x2 y2 : PyObj) (d : ℕ)
    (h : (x1.isNone || y1.isNone || x2.isNone || y2.isNone) = true) :
    get_harversion_distance x1 y1 x2 y2 d = Except.ok Option.none ∧
    get_euclidean_distance x1 y1 x2 y2 d = Except.ok Option.none := by
  constructor
  · unfold get_harversion_distance
    rw [if_pos h]
  · unfold get_euclidean_distance
    rw [if_pos h]

/-- C6: whenever at least one of the four coordinates is `None`, both
distance functions return `None` (no exception), regardless of the
values of the other coordinates. -/
theorem C6_null_propagation (x1 y1 x2 y2 : PyObj) (d : ℕ)
    (h : x1 = PyObj.none ∨ y1 = PyObj.none ∨ x2 = PyObj.none ∨ y2 = PyObj.none) :
    get_harversion_distance x1 y1 x2 y2 d = Except.ok Option.none ∧
    get_euclidean_distance x1 y1 x2 y2 d = Except.ok Option.none := by
  apply distances_return_none
  rcases h with h | h | h | h <;> subst h <;> simp [PyObj.isNone]

/-- Witness for C6: second longitude missing, all other coordinates
present and valid. -/
theorem C6_null_propagation_witness :
    (PyObj.num 0 = PyObj.none ∨ PyObj.num 0 = PyObj.none ∨
      PyObj.none = PyObj.none ∨ PyObj.num 0 = PyObj.none) ∧
    (get_harversion_distance (PyObj.num 0) (PyObj.num 0) PyObj.none (PyObj.num 0) 5 =
      Except.ok Option.none ∧
     get_euclidean_distance (PyObj.num 0) (PyObj.num 0) PyObj.none (PyObj.num 0) 5 =
      Except.ok Option.none) :=
  ⟨Or.inr (Or.inr (Or.inl rfl)),
   C6_null_propagation (PyObj.num 0) (PyObj.num 0) PyObj.none (PyObj.num 0) 5
     (Or.inr (Or.inr (Or.inl rfl)))⟩

/-- C9: when all four coordinates are non-null but some coordinate is
non-numeric or out of range, both distance functions raise an
`AssertionError` and do not return a value. -/
theorem C9_assert_on_invalid_coordinate (x1 y1 x2 y2 : PyObj) (d : ℕ)
    (hn1 : x1 ≠ PyObj.none) (hn2 : y1 ≠ PyObj.none)
    (hn3 : x2 ≠ PyObj.none) (hn4 : y2 ≠ PyObj.none)
    (hbad : ¬ (numOK x1 (-180) 180 ∧ numOK y1 (-90) 90 ∧
      numOK x2 (-180) 180 ∧ numOK y2 (-90) 90)) :
    get_harversion_distance x1 y1 x2 y2 d = Except.error "AssertionError" ∧
    get_euclidean_distance x1 y1 x2 y2 d = Except.error "AssertionError" := by
  refine ⟨?_, ?_⟩ <;>
  · by_cases h1 : numOK x1 (-180) 180
    · by_cases h2 : numOK y1 (-90) 90
      · by_cases h3 : numOK x2 (-180) 180
        · by_cases h4 : numOK y2 (-90) 90
          · exact absurd ⟨h1, h2, h3, h4⟩ hbad
          · simp [get_harversion_distance, get_euclidean_distance,
              isNone_false hn1, isNone_false hn2, isNone_false hn3, isNone_false hn4,
              h1, h2, h3, h4]
        · simp [get_harversion_distance, get_euclidean_distance,
            isNone_false hn1, isNone_false hn2, isNone_false hn3, isNone_false hn4,
            h1, h2, h3]
      · simp [get_harversion_distance, get_euclidean_distance,
          isNone_false hn1, isNone_false hn2, isNone_false hn3, isNone_false hn4,
          h1, h2]
    · simp [get_harversion_distance, get_euclidean_distance,
        isNone_false hn1, isNone_false hn2, isNone_false hn3, isNone_false hn4, h1]

/-- Witness for C9 at the spec's own test value: longitude 200 is out of
range and triggers the assertion. -/
theorem C9_assert_on_invalid_coordinate_witness :
    (PyObj.num 200 ≠ PyObj.none ∧ PyObj.num 0 ≠ PyObj.none ∧
      ¬ (numOK (PyObj.num 200) (-180) 180 ∧ numOK (PyObj.num 0) (-90) 90 ∧
        numOK (PyObj.num 0) (-180) 180 ∧ numOK (PyObj.num 0) (-90) 90)) ∧
    (get_harversion_distance (PyObj.num 200) (PyObj.num 0) (PyObj.num 0) (PyObj.num 0) 5 =
      Except.error "AssertionError" ∧
     get_euclidean_distance (PyObj.num 200) (PyObj.num 0) (PyObj.num 0) (PyObj.num 0) 5 =
      Except.error "AssertionError") :=
  ⟨⟨by simp, by simp, fun h => by have h2 := h.1.2; norm_num at h2⟩,
   C9_assert_on_invalid_coordinate (PyObj.num 200) (PyObj.num 0) (PyObj.num 0)
     (PyObj.num 0) 5 (by simp) (by simp) (by simp) (by simp)
     (fun h => by have h2 := h.1.2; norm_num at h2)⟩

/-- C10: the missing-data check runs before precondition validation in
both distance functions: whenever some coordinate is `None`, the result
is `None` even when another coordinate is non-numeric or out of range
(no assertion error is raised). -/
theorem C10_none_check_precedes_asserts (x1 y1 x2 y2 : PyObj) (d : ℕ)
    (hnull : x1 = PyObj.none ∨ y1 = PyObj.none ∨ x2 = PyObj.none ∨ y2 = PyObj.none)
    (hbad : ¬ (numOK x1 (-180) 180 ∧ numOK y1 (-90) 90 ∧
      numOK x2 (-180) 180 ∧ numOK y2 (-90) 90)) :
    get_harversion_distance x1 y1 x2 y2 d = Except.ok Option.none ∧
    get_euclidean_distance x1 y1 x2 y2 d = Except.ok Option.none := by
  apply distances_return_none
  rcases hnull with h | h | h | h <;> subst h <;> simp [PyObj.isNone]

/-- Witness for C10: `x1 = None` together with the out-of-range latitude
`y1 = 500` still returns `None`, not an assertion error. -/
theorem C10_none_check_precedes_asserts_witness :
    ((PyObj.none = PyObj.none ∨ PyObj.num 500 = PyObj.none ∨
       PyObj.num 0 = PyObj.none ∨ PyObj.num 0 = PyObj.none) ∧
      ¬ (numOK PyObj.none (-180) 180 ∧ numOK (PyObj.num 500) (-90) 90 ∧
        numOK (PyObj.num 0) (-180) 180 ∧ numOK (PyObj.num 0) (-90) 90)) ∧
    (get_harversion_distance PyObj.none (PyObj.num 500) (PyObj.num 0) (PyObj.num 0) 5 =
      Except.ok Option.none ∧
     get_euclidean_distance PyObj.none (PyObj.num 500) (PyObj.num 0) (PyObj.num 0) 5 =
      Except.ok Option.none) :=
  ⟨⟨Or.inl rfl, fun h => h.1⟩,
   C10_none_check_precedes_asserts PyObj.none (PyObj.num 500) (PyObj.num 0) (PyObj.num 0) 5
     (Or.inl rfl) (fun h => h.1)⟩

/-! ## Claims C3, C4 -/

lemma PyObj.val_num (x : ℝ) : (PyObj.num x).val = x := rfl

lemma roundHalfEven_nonneg (y : ℝ) (hy : 0 ≤ y) : 0 ≤ roundHalfEven y := by
  unfold roundHalfEven
  by_cases hf : Int.fract y = 1 / 2
  · rw [if_pos hf]
    have h0 : (0 : ℤ) ≤ ⌊y⌋ := Int.floor_nonneg.mpr hy
    by_cases he : Even ⌊y⌋
    · rw [if_pos he]; exact h0
    · rw [if_neg he]; omega
  · rw [if_neg hf, round_eq]
    exact Int.floor_nonneg.mpr (by linarith)

lemma pyRound_nonneg (x : ℝ) (hx : 0 ≤ x) (d : ℕ) : 0 ≤ pyRound x d := by
  unfold pyRound
  apply div_nonneg
  · exact_mod_cast roundHalfEven_nonneg _ (by positivity)
  · positivity

lemma pyRound_of_int (x : ℝ) (z : ℤ) (d : ℕ) (hx : x * 10 ^ d = (z : ℝ)) :
    pyRound x d = (z : ℝ) / 10 ^ d := by
  unfold pyRound roundHalfEven
  rw [hx, Int.fract_intCast, if_neg (by norm_num), round_intCast]

lemma atan2_nonneg (y x : ℝ) (hy : 0 ≤ y) (hx : 0 ≤ x) : 0 ≤ atan2 y x := by
  unfold atan2
  by_cases h1 : 0 < x
  · rw [if_pos h1]
    have h := Real.arctan_strictMono.monotone (div_nonneg hy h1.le)
    rwa [Real.arctan_zero] at h
  · rw [if_neg h1, if_neg (not_lt.mpr hx)]
    by_cases h2 : 0 < y
    · rw [if_pos h2]
      linarith [Real.pi_pos]
    · rw [if_neg h2, if_neg (not_lt.mpr hy)]

lemma cos_deg_nonneg (y : ℝ) (h1 : -90 ≤ y) (h2 : y ≤ 90) :
    0 ≤ Real.cos (degree2radius y) := by
  apply Real.cos_nonneg_of_mem_Icc
  unfold degree2radius
  constructor
  · nlinarith [Real.pi_pos, mul_nonneg (by linarith : (0:ℝ) ≤ y + 90)
      (by positivity : (0:ℝ) ≤ Real.pi / 180)]
  · nlinarith [Real.pi_pos, mul_nonneg (by linarith : (0:ℝ) ≤ 90 - y)
      (by positivity : (0:ℝ) ≤ Real.pi / 180)]

lemma haversine_core_nonneg (u v w : ℝ) (hcu : 0 ≤ Real.cos u) (hcv : 0 ≤ Real.cos v) :
    0 ≤ Real.sin ((v - u) / 2) * Real.sin ((v - u) / 2) +
      Real.cos u * Real.cos v * (Real.sin (w / 2) * Real.sin (w / 2)) := by
  have h1 := mul_self_nonneg (Real.sin ((v - u) / 2))
  have h4 := mul_self_nonneg (Real.sin (w / 2))
  nlinarith [mul_nonneg (mul_nonneg hcu hcv) h4]

lemma haversine_core_le_one (u v w : ℝ) (hcu : 0 ≤ Real.cos u) (hcv : 0 ≤ Real.cos v) :
    Real.sin ((v - u) / 2) * Real.sin ((v - u) / 2) +
      Real.cos u * Real.cos v * (Real.sin (w / 2) * Real.sin (w / 2)) ≤ 1 := by
  have hbig : Real.sin ((v - u) / 2) * Real.sin ((v - u) / 2) =
      (1 - (Real.cos u * Real.cos v + Real.sin u * Real.sin v)) / 2 := by
    have h := Real.sin_sq_eq_half_sub ((v - u) / 2)
    rw [show 2 * ((v - u) / 2) = v - u by ring, Real.cos_sub, pow_two] at h
    linear_combination h
  have hs : Real.sin (w / 2) * Real.sin (w / 2) ≤ 1 := by
    nlinarith [Real.sin_le_one (w / 2), Real.neg_one_le_sin (w / 2)]
  have hprod : Real.cos u * Real.cos v * (Real.sin (w / 2) * Real.sin (w / 2)) ≤
      Real.cos u * Real.cos v :=
    mul_le_of_le_one_right (mul_nonneg hcu hcv) hs
  have hub : Real.cos u * Real.cos v - Real.sin u * Real.sin v ≤ 1 := by
    have h := Real.cos_le_one (u + v)
    rw [Real.cos_add] at h
    linarith
  linarith [hbig, hprod, hub]

/-- C3: for every pair of in-range numeric coordinates and every
precision, `get_harversion_distance` returns the haversine value of the
spec (R = 6371, a = sin²(Δlat/2) + cos(y1')·cos(y2')·sin²(Δlon/2),
c = 2·atan2(√a, √(1−a)), R·c rounded to `p` decimal digits), and the
result is non-negative. -/
theorem C3_haversine_formula_nonneg (x1 y1 x2 y2 : ℝ) (p : ℕ)
    (hx1l : -180 ≤ x1) (hx1u : x1 ≤ 180) (hy1l : -90 ≤ y1) (hy1u : y1 ≤ 90)
    (hx2l : -180 ≤ x2) (hx2u : x2 ≤ 180) (hy2l : -90 ≤ y2) (hy2u : y2 ≤ 90) :
    get_harversion_distance (PyObj.num x1) (PyObj.num y1) (PyObj.num x2) (PyObj.num y2) p =
      Except.ok (some (specHaversine x1 y1 x2 y2 p)) ∧
    0 ≤ specHaversine x1 y1 x2 y2 p := by
  have hcu := cos_deg_nonneg y1 hy1l hy1u
  have hcv := cos_deg_nonneg y2 hy2l hy2u
  have hdlat : degree2radius (y2 - y1) = degree2radius y2 - degree2radius y1 := by
    unfold degree2radius
    ring
  have ha0 : 0 ≤ Real.sin (degree2radius (y2 - y1) / 2) * Real.sin (degree2radius (y2 - y1) / 2) +
      Real.cos (degree2radius y1) * Real.cos (degree2radius y2) *
        (Real.sin (degree2radius (x2 - x1) / 2) * Real.sin (degree2radius (x2 - x1) / 2)) := by
    rw [hdlat]
    exact haversine_core_nonneg _ _ _ hcu hcv
  have ha1 : Real.sin (degree2radius (y2 - y1) / 2) * Real.sin (degree2radius (y2 - y1) / 2) +
      Real.cos (degree2radius y1) * Real.cos (degree2radius y2) *
        (Real.sin (degree2radius (x2 - x1) / 2) * Real.sin (degree2radius (x2 - x1) / 2)) ≤ 1 := by
    rw [hdlat]
    exact haversine_core_le_one _ _ _ hcu hcv
  have hpow : Real.sin (degree2radius (y2 - y1) / 2) * Real.sin (degree2radius (y2 - y1) / 2) +
      Real.cos (degree2radius y1) * Real.cos (degree2radius y2) *
        (Real.sin (degree2radius (x2 - x1) / 2) * Real.sin (degree2radius (x2 - x1) / 2)) =
      Real.sin (degree2radius (y2 - y1) / 2) ^ 2 +
      Real.cos (degree2radius y1) * Real.cos (degree2radius y2) *
        Real.sin (degree2radius (x2 - x1) / 2) ^ 2 := by
    ring
  constructor
  · unfold get_harversion_distance
    rw [if_neg (by simp [PyObj.isNone])]
    rw [if_neg (not_not_intro (show numOK (PyObj.num x1) (-180) 180 from ⟨hx1l, hx1u⟩))]
    rw [if_neg (not_not_intro (show numOK (PyObj.num y1) (-90) 90 from ⟨hy1l, hy1u⟩))]
    rw [if_neg (not_not_intro (show numOK (PyObj.num x2) (-180) 180 from ⟨hx2l, hx2u⟩))]
    rw [if_neg (not_not_intro (show numOK (PyObj.num y2) (-90) 90 from ⟨hy2l, hy2u⟩))]
    simp only [PyObj.val_num]
    rw [if_neg (not_lt.mpr ha0), if_neg (not_lt.mpr (by linarith)), hpow]
    rfl
  · have hat : 0 ≤ atan2
        (Real.sqrt (Real.sin (degree2radius (y2 - y1) / 2) ^ 2 +
          Real.cos (degree2radius y1) * Real.cos (degree2radius y2) *
            Real.sin (degree2radius (x2 - x1) / 2) ^ 2))
        (Real.sqrt (1 - (Real.sin (degree2radius (y2 - y1) / 2) ^ 2 +
          Real.cos (degree2radius y1) * Real.cos (degree2radius y2) *
            Real.sin (degree2radius (x2 - x1) / 2) ^ 2))) :=
      atan2_nonneg _ _ (Real.sqrt_nonneg _) (Real.sqrt_nonneg _)
    show 0 ≤ pyRound (6371 * (2 * atan2
        (Real.sqrt (Real.sin (degree2radius (y2 - y1) / 2) ^ 2 +
          Real.cos (degree2radius y1) * Real.cos (degree2radius y2) *
            Real.sin (degree2radius (x2 - x1) / 2) ^ 2))
        (Real.sqrt (1 - (Real.sin (degree2radius (y2 - y1) / 2) ^ 2 +
          Real.cos (degree2radius y1) * Real.cos (degree2radius y2) *
            Real.sin (degree2radius (x2 - x1) / 2) ^ 2))))) p
    exact pyRound_nonneg _ (by nlinarith [hat]) p

/-- Witness for C3 at the identical points (0,0), (0,0). -/
theorem C3_haversine_formula_nonneg_witness :
    ((-180 : ℝ) ≤ 0 ∧ (0 : ℝ) ≤ 180 ∧ (-90 : ℝ) ≤ 0 ∧ (0 : ℝ) ≤ 90) ∧
    (get_harversion_distance (PyObj.num 0) (PyObj.num 0) (PyObj.num 0) (PyObj.num 0) 5 =
        Except.ok (some (specHaversine 0 0 0 0 5)) ∧
      0 ≤ specHaversine 0 0 0 0 5) :=
  ⟨⟨by norm_num, by norm_num, by norm_num, by norm_num⟩,
   C3_haversine_formula_nonneg 0 0 0 0 5 (by norm_num) (by norm_num) (by norm_num)
     (by norm_num) (by norm_num) (by norm_num) (by norm_num) (by norm_num)⟩

/-- C4: for every pair of in-range numeric coordinates,
`get_euclidean_distance` computes Δlon = |x2−x1|, replaces it with
Δlon−360 when Δlon ≥ 180, takes Δlat = y2−y1, and returns
√(Δlon² + Δlat²) rounded to `p` digits; in particular the antimeridian
pair (179,0), (−179,0) gives exactly 2 rather than about 358. -/
theorem C4_planar_formula_antimeridian :
    (∀ (x1 y1 x2 y2 : ℝ) (p : ℕ), -180 ≤ x1 → x1 ≤ 180 → -90 ≤ y1 → y1 ≤ 90 →
      -180 ≤ x2 → x2 ≤ 180 → -90 ≤ y2 → y2 ≤ 90 →
      get_euclidean_distance (PyObj.num x1) (PyObj.num y1) (PyObj.num x2) (PyObj.num y2) p =
        Except.ok (some (specPlanar x1 y1 x2 y2 p))) ∧
    get_euclidean_distance (PyObj.num 179) (PyObj.num 0) (PyObj.num (-179)) (PyObj.num 0) 5 =
      Except.ok (some 2) := by
  have hgen : ∀ (x1 y1 x2 y2 : ℝ) (p : ℕ), -180 ≤ x1 → x1 ≤ 180 → -90 ≤ y1 → y1 ≤ 90 →
      -180 ≤ x2 → x2 ≤ 180 → -90 ≤ y2 → y2 ≤ 90 →
      get_euclidean_distance (PyObj.num x1) (PyObj.num y1) (PyObj.num x2) (PyObj.num y2) p =
        Except.ok (some (specPlanar x1 y1 x2 y2 p)) := by
    intro x1 y1 x2 y2 p hx1l hx1u hy1l hy1u hx2l hx2u hy2l hy2u
    unfold get_euclidean_distance
    rw [if_neg (by simp [PyObj.isNone])]
    rw [if_neg (not_not_intro (show numOK (PyObj.num x1) (-180) 180 from ⟨hx1l, hx1u⟩))]
    rw [if_neg (not_not_intro (show numOK (PyObj.num y1) (-90) 90 from ⟨hy1l, hy1u⟩))]
    rw [if_neg (not_not_intro (show numOK (PyObj.num x2) (-180) 180 from ⟨hx2l, hx2u⟩))]
    rw [if_neg (not_not_intro (show numOK (PyObj.num y2) (-90) 90 from ⟨hy2l, hy2u⟩))]
    simp only [PyObj.val_num]
    rw [if_neg (not_lt.mpr (by positivity))]
    rfl
  refine ⟨hgen, ?_⟩
  rw [hgen 179 0 (-179) 0 5 (by norm_num) (by norm_num) (by norm_num) (by norm_num)
    (by norm_num) (by norm_num) (by norm_num) (by norm_num)]
  have hval : specPlanar 179 0 (-179) 0 5 = 2 := by
    simp only [specPlanar]
    rw [show |(-179 : ℝ) - 179| = 358 by norm_num]
    rw [if_pos (by norm_num : (180 : ℝ) ≤ 358)]
    norm_num
    rw [show Real.sqrt 4 = 2 by
      rw [show (4 : ℝ) = 2 ^ 2 by norm_num, Real.sqrt_sq (by norm_num : (0 : ℝ) ≤ 2)]]
    rw [pyRound_of_int 2 200000 5 (by norm_num)]
    norm_num
  rw [hval]

/-- Witness for C4 at the points (0,0), (3,4). -/
theorem C4_planar_formula_antimeridian_witness :
    ((-180 : ℝ) ≤ 0 ∧ (3 : ℝ) ≤ 180 ∧ (4 : ℝ) ≤ 90) ∧
    get_euclidean_distance (PyObj.num 0) (PyObj.num 0) (PyObj.num 3) (PyObj.num 4) 5 =
      Except.ok (some (specPlanar 0 0 3 4 5)) :=
  ⟨⟨by norm_num, by norm_num, by norm_num⟩,
   C4_planar_formula_antimeridian.1 0 0 3 4 5 (by norm_num) (by norm_num) (by norm_num)
     (by norm_num) (by norm_num) (by norm_num) (by norm_num) (by norm_num)⟩

/-! ## Claim C5 -/

/-- Disjointness of cell interiors: no point is `within` both cells. -/
def cellsDisjoint (c1 c2 : Polygon) : Prop :=
  ∀ pt : Point, ¬ (withinRect pt c1 = true ∧ withinRect pt c2 = true)

lemma withinRect_iff (pt : Point) (g : Polygon) :
    withinRect pt g = true ↔
      g.p1.x < pt.x ∧ pt.x < g.p2.x ∧ g.p3.y < pt.y ∧ pt.y < g.p1.y := by
  simp [withinRect, Bool.and_eq_true, decide_eq_true_eq, and_assoc]

lemma gridCells_mem (xl xr s : ℚ) (hs : 0 ≤ s) :
    ∀ (n : ℕ) (yt yb : ℚ) (c : Polygon), c ∈ gridCells xl xr yt yb s n →
      c.p1.x = xl ∧ c.p2.x = xr ∧ c.p1.y ≤ yt := by
  intro n
  induction n with
  | zero => intro yt yb c hc; cases hc
  | succ n ih =>
    intro yt yb c hc
    rcases List.mem_cons.mp hc with h | h
    · subst h
      exact ⟨rfl, rfl, le_refl _⟩
    · rcases ih (yt - s) (yb - s) c h with ⟨h1, h2, h3⟩
      exact ⟨h1, h2, by linarith⟩

lemma gridCols_mem_x (s : ℚ) (hs : 0 ≤ s) (rows : ℕ) :
    ∀ (cols : ℕ) (xl xr yt yb : ℚ) (c : Polygon), c ∈ gridCols xl xr yt yb s rows cols →
      xl ≤ c.p1.x := by
  intro cols
  induction cols with
  | zero => intro xl xr yt yb c hc; cases hc
  | succ n ih =>
    intro xl xr yt yb c hc
    rcases List.mem_append.mp hc with h | h
    · exact le_of_eq (gridCells_mem xl xr s hs rows yt yb c h).1.symm
    · have := ih (xl + s) (xr + s) yt yb c h
      linarith

/-- Cells within one column have pairwise disjoint interiors: each cell
spans the vertical band (yt − s, yt] of its own row. -/
lemma pairwise_gridCells (xl xr s : ℚ) (hs : 0 < s) :
    ∀ (n : ℕ) (yt : ℚ), List.Pairwise cellsDisjoint (gridCells xl xr yt (yt - s) s n) := by
  intro n
  induction n with
  | zero => intro yt; exact List.Pairwise.nil
  | succ n ih =>
    intro yt
    refine List.Pairwise.cons ?_ ?_
    · intro c2 hc2 pt hpt
      rcases hpt with ⟨hhead, hc2w⟩
      have h1 := (withinRect_iff pt _).mp hhead
      have h2 := (withinRect_iff pt c2).mp hc2w
      have h3 := (gridCells_mem xl xr s hs.le n (yt - s) ((yt - s) - s) c2 hc2).2.2
      simp only at h1
      linarith [h1.2.2.1, h2.2.2.2, h3]
    · exact ih (yt - s)

/-- Cells of the whole grid have pairwise disjoint interiors: distinct
columns occupy disjoint vertical strips. -/
lemma pairwise_gridCols (s : ℚ) (hs : 0 < s) (rows : ℕ) :
    ∀ (cols : ℕ) (xl yt : ℚ),
      List.Pairwise cellsDisjoint (gridCols xl (xl + s) yt (yt - s) s rows cols) := by
  intro cols
  induction cols with
  | zero => intro xl yt; exact List.Pairwise.nil
  | succ n ih =>
    intro xl yt
    have hunfold : gridCols xl (xl + s) yt (yt - s) s rows (n + 1) =
        gridCells xl (xl + s) yt (yt - s) s rows ++
          gridCols (xl + s) ((xl + s) + s) yt (yt - s) s rows n := by
      rw [gridCols]
    rw [hunfold, List.pairwise_append]
    refine ⟨pairwise_gridCells xl (xl + s) s hs rows yt, ih (xl + s) yt, ?_⟩
    intro a ha b hb pt hpt
    rcases hpt with ⟨haw, hbw⟩
    have h1 := (withinRect_iff pt a).mp haw
    have h2 := (withinRect_iff pt b).mp hbw
    have h3 := (gridCells_mem xl (xl + s) s hs.le rows yt (yt - s) a ha).2.1
    have h4 := gridCols_mem_x s hs.le rows n (xl + s) ((xl + s) + s) yt (yt - s) b hb
    linarith [h1.2.1, h2.1, h3, h4]

lemma filter_length_le_one {α : Type} (P : α → Bool) :
    ∀ l : List α, List.Pairwise (fun a b => ¬ (P a = true ∧ P b = true)) l →
      (l.filter P).length ≤ 1 := by
  intro l h
  induction l with
  | nil => simp
  | cons a l ih =>
    rcases List.pairwise_cons.mp h with ⟨ha, hl⟩
    by_cases ha0 : P a = true
    · rw [List.filter_cons_of_pos ha0]
      have hfe : l.filter P = [] := by
        rw [List.filter_eq_nil_iff]
        intro b hb hPb
        exact (ha b hb) ⟨ha0, by simpa using hPb⟩
      rw [hfe]
      simp
    · rw [List.filter_cons_of_neg (by simpa using ha0)]
      exact ih hl

lemma create_grid_pairwise (b : Bounds) (s : ℚ) (hs : 0 < s) (l : List Polygon)
    (hl : create_grid b s = Except.ok l) : List.Pairwise cellsDisjoint l := by
  unfold create_grid at hl
  rw [if_neg (ne_of_gt hs)] at hl
  have h3 : gridCols b.xmin (b.xmin + s) b.ymax (b.ymax - s) s
      ((⌈(b.ymax - b.ymin) / s⌉).toNat) ((⌈(b.xmax - b.xmin) / s⌉).toNat) = l :=
    Except.ok.inj hl
  rw [← h3]
  exact pairwise_gridCols s hs _ _ b.xmin b.ymax

/-- `create_grid` on the bounding box (0,0)-(10,10) with grid size 5
produces exactly the four cells of `demoGrid`. -/
lemma create_grid_demo : create_grid ⟨0, 0, 10, 10⟩ 5 = Except.ok demoGrid := by
  unfold create_grid
  rw [if_neg (by norm_num)]
  norm_num [gridCols, gridCells, demoGrid]

/-- C5 as stated is false on the code: the point (1,5) lies in the
footprint of the grid built over (0,0)-(10,10) with grid size 5 (its
closed-containment count is 2: it sits on the edge shared by the two
left-column cells), yet the `within` spatial join assigns it to zero
cells, not exactly one — the implementation has no tie-break that picks
an owner for boundary points. -/
theorem C5_counterexample :
    create_grid ⟨0, 0, 10, 10⟩ 5 = Except.ok demoGrid ∧
    (demoGrid.enum.filter (fun c => inClosedRect ⟨1, 5⟩ c.2)).length = 2 ∧
    (demoGrid.enum.filter (fun c => withinRect ⟨1, 5⟩ c.2)).length = 0 :=
  ⟨create_grid_demo, by decide, by decide⟩

/-- C5 amended: every point appears in **at most one** cell's point
list.  The cells produced by `create_grid` have pairwise disjoint
interiors and the `within` predicate tests interior membership, so the
spatial join (over the filtered grid — any selection `g` of labelled
grid rows) never matches a point to two cells and no point is counted
twice; points on shared cell boundaries are matched to zero cells (see
the counterexample), and no deterministic-owner tie-break exists or is
needed. -/
theorem C5_assignment_at_most_one (b : Bounds) (s : ℚ) (hs : 0 < s) (l : List Polygon)
    (hl : create_grid b s = Except.ok l)
    (g : List (ℕ × Polygon)) (hg : g.Sublist l.enum) (pt : Point) :
    (g.filter (fun c => withinRect pt c.2)).length ≤ 1 := by
  have hpair : List.Pairwise cellsDisjoint l := create_grid_pairwise b s hs l hl
  have hsub : (g.map Prod.snd).Sublist l := by
    have h := hg.map Prod.snd
    rwa [List.enum_map_snd] at h
  have hpair2 : List.Pairwise
      (fun a b => ¬ (withinRect pt a = true ∧ withinRect pt b = true))
      (g.map Prod.snd) :=
    (List.Pairwise.sublist hsub hpair).imp (fun h => h pt)
  have hcount : (g.filter (fun c => withinRect pt c.2)).length =
      ((g.map Prod.snd).filter (fun c => withinRect pt c)).length := by
    rw [← List.countP_eq_length_filter, ← List.countP_eq_length_filter, List.countP_map]
    rfl
  rw [hcount]
  exact filter_length_le_one _ _ hpair2

/-- Witness for the amended C5 on the 2×2 demo grid. -/
theorem C5_assignment_at_most_one_witness :
    ((0 : ℚ) < 5 ∧ create_grid ⟨0, 0, 10, 10⟩ 5 = Except.ok demoGrid ∧
      demoGrid.enum.Sublist demoGrid.enum) ∧
    (demoGrid.enum.filter (fun c => withinRect ⟨1, 1⟩ c.2)).length ≤ 1 :=
  ⟨⟨by norm_num, create_grid_demo, List.Sublist.refl _⟩,
   C5_assignment_at_most_one ⟨0, 0, 10, 10⟩ 5 (by norm_num) demoGrid create_grid_demo
     demoGrid.enum (List.Sublist.refl _) ⟨1, 1⟩⟩
